import Mathlib

/-!
Verification development for the multi-tenant catalog backend
(`django-multitenant-saas`).

The development shallowly embeds the tenant-scoped cache / search / notification
coordination logic of the repository:

* `apps/catalog/cache.py`   — `CatalogCacheService` (keys, generation counter);
* `apps/catalog/search.py`  — `ProductSearchService` (index names, delete path);
* `apps/catalog/views.py`   — `ProductViewSet` (search endpoint, invalidation);
* `apps/catalog/signals.py` — the wired post-save / post-delete handlers;
* `apps/catalog/services.py` — `ProductEventService` (orchestrated write path);
* `apps/notifications/services.py` — channel naming and push delivery.

External collaborators (the Django cache backend, the Elasticsearch client, the
relational store, the channel layer) are modelled as explicit state or as
outcome parameters, following the spec's component boundaries.
-/

/-- Modelled from the spec: the `Product` record (`apps/catalog/models.py` is not
present under `src/`); spec §3 gives the fields: integer identifier assigned by
the storage engine, name, description, price (a decimal, kept here as its source
string — no claim in scope depends on decimal arithmetic), and an active flag. -/
structure Product where
  id : Nat
  name : String
  description : String
  price : String
  is_active : Bool
  deriving DecidableEq, Repr

/-- Values stored in the Django cache backend, as used by this code base:
integers (the search-generation counter), strings (a possibly corrupted counter),
and serialized response payloads (search/list/detail responses; DRF serialization
is thin marshaling per spec §1, modelled as the record list itself). -/
inductive PyVal where
  | pyInt (n : Int)
  | pyStr (s : String)
  | pyData (items : List Product)
  deriving DecidableEq, Repr

/-- A cache entry: the stored value and its timeout (`none` = no expiry). -/
structure Entry where
  val : PyVal
  timeout : Option Nat
  deriving DecidableEq, Repr

/-- The cache backend (`django.core.cache.cache`): a key-value store. -/
abbrev Store := String → Option Entry

def emptyStore : Store := fun _ => none

/-- Embeds `cache.get(key)` — the value at the key, or `None`. -/
def cacheGet (s : Store) (k : String) : Option PyVal :=
  (s k).map Entry.val

/-- Embeds `cache.set(key, value, timeout)` — store the value under the key. -/
def cacheSet (s : Store) (k : String) (v : PyVal) (t : Option Nat) : Store :=
  fun k' => if k' = k then some ⟨v, t⟩ else s k'

/-- Embeds `cache.delete(key)`. -/
def cacheDelete (s : Store) (k : String) : Store :=
  fun k' => if k' = k then none else s k'

/-- Outcome of `cache.incr(key)`.  Per the Django cache contract (spec §6):
increment succeeds atomically on an initialized numeric key; raises `ValueError`
when the key was never initialized; any other failure (backend unavailable, or a
non-numeric stored value, where `value + 1` raises `TypeError`) is a generic
exception. -/
inductive IncrResult where
  | success (n : Int) (s : Store)
  | valueError
  | otherError

/-- Embeds `cache.incr(key)`; `healthy = false` models the backend failing the call for
a reason other than a missing key (an unexpected failure). -/
def cacheIncr (healthy : Bool) (s : Store) (k : String) : IncrResult :=
  if healthy then
    match s k with
    | none => .valueError
    | some ⟨.pyInt n, t⟩ => .success (n + 1) (cacheSet s k (.pyInt (n + 1)) t)
    | some _ => .otherError
  else .otherError

/-- Python's `x or 'public'` on an optional string: `None` and `''` are falsy.
This is the tenant fallback of `CatalogCacheService.__init__`
(`apps/catalog/cache.py` line 14) and of `ProductEventService.__init__`
(`apps/catalog/services.py` line 21). -/
def orPublic : Option String → String
  | none => "public"
  | some s => if s = "" then "public" else s

/-- Embeds `CatalogCacheService.key`: `f'{self.schema_name}:catalog:{suffix}'`. -/
def CatalogCacheService.key (schema_name suffix : String) : String :=
  schema_name ++ ":catalog:" ++ suffix

/-- Embeds `CatalogCacheService.product_list_key`. -/
def CatalogCacheService.product_list_key (schema_name : String) : String :=
  CatalogCacheService.key schema_name "products:list"

/-- Embeds `CatalogCacheService.product_detail_key`. -/
def CatalogCacheService.product_detail_key (schema_name : String) (product_id : Nat) : String :=
  CatalogCacheService.key schema_name ("products:" ++ toString product_id)

/-- Embeds `CatalogCacheService.search_version_key`. -/
def CatalogCacheService.search_version_key (schema_name : String) : String :=
  CatalogCacheService.key schema_name "products:search:version"

/-- Decimal-digit parse of a character list: `some` of the value when the list
is a non-empty run of ASCII digits, `none` otherwise. -/
def parseDigits (cs : List Char) : Option Nat :=
  if cs = [] then none
  else
    cs.foldl
      (fun acc c =>
        match acc, (if c.isDigit then some (c.toNat - 48) else none) with
        | some a, some d => some (10 * a + d)
        | _, _ => none)
      (some 0)

/-- Python `int(x)` on a string: an optionally signed run of decimal digits
parses to its value; anything else raises (`none`).  (Python's `int` also
accepts surrounding whitespace and underscore separators; the values in scope
here are plain literals.) -/
def pyIntParse (s : String) : Option Int :=
  match s.data with
  | '-' :: rest => (parseDigits rest).map (fun n => -(n : Int))
  | '+' :: rest => (parseDigits rest).map (fun n => (n : Int))
  | cs => (parseDigits cs).map (fun n => (n : Int))

/-- Python `int(x)` on the cache values of this model: succeeds on an integer,
parses an integer-literal string, and raises (`none`) otherwise — the code
catches exactly `(TypeError, ValueError)` around this conversion. -/
def pyIntOf : PyVal → Option Int
  | .pyInt n => some n
  | .pyStr s => pyIntParse s
  | .pyData _ => none

/-- Embeds `CatalogCacheService.get_search_version` (`apps/catalog/cache.py` 28-37):
read the counter; if absent, set it to 1 with no expiry and return 1; if present
but non-numeric, reset it to 1 and return 1; otherwise return its integer value.
Returns the version together with the resulting store; total, hence never
raises. -/
def CatalogCacheService.get_search_version (schema_name : String) (s : Store) :
    Int × Store :=
  let k := CatalogCacheService.search_version_key schema_name
  match cacheGet s k with
  | none => (1, cacheSet s k (.pyInt 1) none)
  | some v =>
    match pyIntOf v with
    | some n => (n, s)
    | none => (1, cacheSet s k (.pyInt 1) none)

/-- Embeds `CatalogCacheService.bump_search_version` (`apps/catalog/cache.py` 39-50):
try `cache.incr`; on `ValueError` (uninitialized key) fall back to
`get_search_version` and write `current + 1`; on any other exception log and
return `get_search_version` unchanged.  Total, hence never raises. -/
def CatalogCacheService.bump_search_version (healthy : Bool) (schema_name : String)
    (s : Store) : Int × Store :=
  let k := CatalogCacheService.search_version_key schema_name
  match cacheIncr healthy s k with
  | .success n s' => (n, s')
  | .valueError =>
    let r := CatalogCacheService.get_search_version schema_name s
    let next := r.1 + 1
    (next, cacheSet r.2 k (.pyInt next) none)
  | .otherError => CatalogCacheService.get_search_version schema_name s

/-- Embeds `CatalogCacheService.invalidate_product_change` (`apps/catalog/cache.py`
52-55): delete list key and detail key, then bump the search version. -/
def CatalogCacheService.invalidate_product_change (healthy : Bool)
    (schema_name : String) (product_id : Nat) (s : Store) : Store :=
  let s1 := cacheDelete s (CatalogCacheService.product_list_key schema_name)
  let s2 := cacheDelete s1 (CatalogCacheService.product_detail_key schema_name product_id)
  (CatalogCacheService.bump_search_version healthy schema_name s2).2

/-- Embeds `normalize_schema_name` (`apps/notifications/services.py` 9-12):
`raw = schema_name or 'public'`, then `re.sub(r'[^A-Za-z0-9_.-]', '_', raw)`.
The regex is ASCII character classes; a character outside `[A-Za-z0-9_.-]` is
replaced by `'_'`. -/
def sanitizeChar (c : Char) : Char :=
  if c.isAlpha || c.isDigit || c = '_' || c = '.' || c = '-' then c else '_'

def normalize_schema_name (schema_name : Option String) : String :=
  ⟨(orPublic schema_name).data.map sanitizeChar⟩

/-- Embeds `build_user_notification_group` (`apps/notifications/services.py` 15-16):
`f'{normalize_schema_name(schema_name)}.user_notifications.{user_id}'`. -/
def build_user_notification_group (schema_name : Option String) (user_id : Nat) : String :=
  normalize_schema_name schema_name ++ ".user_notifications." ++ toString user_id

/-- Shared observable state of a write event: the cache store, the notification
rows persisted through the storage engine (`Notification` model, owned by the
storage engine per spec §3), the envelopes handed to the channel layer as
`(group name, message)` pairs (the envelope's `created_at` is real time and not
modelled), and a counter of bulk-push invocations. -/
structure WriteState where
  store : Store
  notifications : List (Nat × String)
  pushes : List (String × String)
  bulkPushCalls : Nat

/-- Embeds `push_user_notification` (`apps/notifications/services.py` 19-33): if the
channel layer is not configured (`layerUp = false`) this is a silent no-op;
otherwise the active schema is `schema_name or getattr(connection,
'schema_name', 'public')` (`connectionSchema = none` models the attribute being
absent) and one envelope is sent to that user's tenant-scoped group. -/
def push_user_notification (layerUp : Bool) (connectionSchema : Option String)
    (user_id : Nat) (message : String) (schema_name : Option String)
    (st : WriteState) : WriteState :=
  if layerUp then
    let active : String :=
      match schema_name with
      | some s => if s ≠ "" then s else connectionSchema.getD "public"
      | none => connectionSchema.getD "public"
    { st with
      pushes := st.pushes ++ [(build_user_notification_group (some active) user_id, message)] }
  else st

/-- Modelled from the spec: `push_bulk_user_notification` is imported by
`apps/catalog/services.py` from `apps.notifications.services` but is absent from
the source tree; spec §4.3 (`push_bulk`) prescribes delivering the same message
to multiple users' channels, implemented as repeated single-channel delivery.
The bulk-call counter records that one bulk push was issued. -/
def push_bulk_user_notification (layerUp : Bool) (connectionSchema : Option String)
    (user_ids : List Nat) (message : String) (schema_name : Option String)
    (st : WriteState) : WriteState :=
  user_ids.foldl
    (fun acc uid => push_user_notification layerUp connectionSchema uid message schema_name acc)
    { st with bulkPushCalls := st.bulkPushCalls + 1 }

/-- Outcome of a call into the external Elasticsearch client. -/
inductive EsCall (α : Type) where
  | ok (a : α)
  | raised (msg : String)

/-- What a Python caller observes from a call: a normal return or a propagated
exception. -/
inductive PyResult (α : Type) where
  | ret (a : α)
  | raised (msg : String)
  deriving DecidableEq

/-- Embeds `ProductSearchService.__init__` (`apps/catalog/search.py` 15): the
tenant-scoped index name
`f"{settings.ELASTICSEARCH_INDEX_PREFIX}_{connection.schema_name}_products"`. -/
def ProductSearchService.index_name (pfx schema_name : String) : String :=
  pfx ++ "_" ++ schema_name ++ "_products"

/-- The document-delete request sent to the client by `delete_product`:
`{'index': ..., 'id': ...}` plus `'refresh'` only when the configured
`write_refresh` is truthy. -/
structure DeletePayload where
  index : String
  id : Nat
  refresh : Option String
  deriving DecidableEq, Repr

/-- Embeds `ProductSearchService.delete_product` (`apps/catalog/search.py` 50-57): the
whole body runs under `try`; any exception from the client is caught and logged.
Returns what the caller observes, paired with the log lines emitted. -/
def ProductSearchService.delete_product (pfx schema_name : String)
    (write_refresh : Option String) (product_id : Nat)
    (clientDelete : DeletePayload → EsCall Unit) : PyResult Unit × List String :=
  let payload : DeletePayload :=
    { index := ProductSearchService.index_name pfx schema_name
      id := product_id
      refresh := match write_refresh with
        | none => none
        | some r => if r ≠ "" then some r else none }
  match clientDelete payload with
  | .ok _ => (.ret (), [])
  | .raised m =>
    (.ret (), ["Failed to delete product from Elasticsearch index: " ++ m])

/-- Environment of one orchestrated write event: behavior of the external
collaborators during the event.  `staff_user_ids` is the storage engine's answer
to `User.objects.filter(is_staff=True)`. -/
structure SvcEnv where
  cacheHealthy : Bool
  layerUp : Bool
  indexCall : EsCall Unit
  staff_user_ids : List Nat

/-- Embeds `ProductEventService._notify_staff_about_product` (`apps/catalog/services.py`
44-51): build the message, read the staff ids; if none, return; otherwise
`Notification.objects.bulk_create` one row per staff user, then one
`push_bulk_user_notification` call. -/
def ProductEventService.notify_staff_about_product (env : SvcEnv)
    (schema_name : String) (product : Product) (st : WriteState) : WriteState :=
  let message := "New product created: " ++ product.name
  let user_ids := env.staff_user_ids
  if user_ids = [] then st
  else
    let st :=
      { st with notifications := st.notifications ++ user_ids.map (fun uid => (uid, message)) }
    push_bulk_user_notification env.layerUp none user_ids message (some schema_name) st

/-- Embeds `ProductEventService.handle_product_saved` (`apps/catalog/services.py`
25-34): invalidate cache for the record (which bumps the generation), attempt
the index upsert (failure logged and swallowed — no observable state here either
way), and on creation notify staff. -/
def ProductEventService.handle_product_saved (env : SvcEnv)
    (schema_name : Option String) (product : Product) (created : Bool)
    (st : WriteState) : WriteState :=
  let schema := orPublic schema_name
  let st :=
    { st with
      store := CatalogCacheService.invalidate_product_change env.cacheHealthy schema
        product.id st.store }
  if created then ProductEventService.notify_staff_about_product env schema product st
  else st

/-- Embeds `ProductEventService.handle_product_deleted` (`apps/catalog/services.py`
36-42): invalidate cache for the deleted id, then attempt the index delete
(failure logged and swallowed). -/
def ProductEventService.handle_product_deleted (env : SvcEnv)
    (schema_name : Option String) (product_id : Nat) (st : WriteState) : WriteState :=
  let schema := orPublic schema_name
  { st with
    store := CatalogCacheService.invalidate_product_change env.cacheHealthy schema
      product_id st.store }

/-- Embeds `_cache_key` as written in `apps/catalog/views.py` 25-26 and
`apps/catalog/signals.py` 18-19: `f'{connection.schema_name}:catalog:{suffix}'`
on the raw connection schema. -/
def viewCacheKey (schema_name suffix : String) : String :=
  schema_name ++ ":catalog:" ++ suffix

/-- Embeds `_invalidate_product_cache` (`apps/catalog/signals.py` 22-24): delete the
list key and the detail key; nothing else. -/
def invalidate_product_cache (schema_name : String) (product_id : Nat) (s : Store) : Store :=
  let s1 := cacheDelete s (viewCacheKey schema_name "products:list")
  cacheDelete s1 (viewCacheKey schema_name ("products:" ++ toString product_id))

/-- Embeds `ProductViewSet._invalidate_cache` (`apps/catalog/views.py` 64-66): delete
the list key and the detail key; nothing else. -/
def ProductViewSet.invalidate_cache (schema_name : String) (product_id : Nat) (s : Store) : Store :=
  let s1 := cacheDelete s (viewCacheKey schema_name "products:list")
  cacheDelete s1 (viewCacheKey schema_name ("products:" ++ toString product_id))

/-- The wired `post_save` receiver `notify_staff_on_product_create`
(`apps/catalog/signals.py` 27-42): invalidate the two direct keys, attempt the
index upsert (swallowed), and if this is a creation, for each staff user create
a `Notification` row and push to that user's tenant-scoped group. -/
def notify_staff_on_product_create (env : SvcEnv) (schema_name : String)
    (product : Product) (created : Bool) (st : WriteState) : WriteState :=
  let st := { st with store := invalidate_product_cache schema_name product.id st.store }
  if ¬ created then st
  else
    env.staff_user_ids.foldl
      (fun acc uid =>
        let msg := "New product created: " ++ product.name
        let acc := { acc with notifications := acc.notifications ++ [(uid, msg)] }
        push_user_notification env.layerUp (some schema_name) uid msg (some schema_name) acc)
      st

/-- The wired `post_delete` receiver `cleanup_product_dependencies`
(`apps/catalog/signals.py` 45-51): invalidate the two direct keys, attempt the
index delete (swallowed). -/
def cleanup_product_dependencies (schema_name : String) (product_id : Nat)
    (st : WriteState) : WriteState :=
  { st with store := invalidate_product_cache schema_name product_id st.store }

/-- Embeds `ProductViewSet.perform_create` (`apps/catalog/views.py` 51-53):
`serializer.save()` — which synchronously fires the wired `post_save`
receiver — followed by `self._invalidate_cache(product.id)`. -/
def ProductViewSet.perform_create (env : SvcEnv) (schema_name : String)
    (product : Product) (st : WriteState) : WriteState :=
  let st := notify_staff_on_product_create env schema_name product true st
  { st with store := ProductViewSet.invalidate_cache schema_name product.id st.store }

/-- Embeds `ProductViewSet.perform_update` (`apps/catalog/views.py` 55-57). -/
def ProductViewSet.perform_update (env : SvcEnv) (schema_name : String)
    (product : Product) (st : WriteState) : WriteState :=
  let st := notify_staff_on_product_create env schema_name product false st
  { st with store := ProductViewSet.invalidate_cache schema_name product.id st.store }

/-- Embeds `ProductViewSet.perform_destroy` (`apps/catalog/views.py` 59-62):
`instance.delete()` fires the wired `post_delete` receiver, then
`self._invalidate_cache(product_id)`. -/
def ProductViewSet.perform_destroy (schema_name : String)
    (product_id : Nat) (st : WriteState) : WriteState :=
  let st := cleanup_product_dependencies schema_name product_id st
  { st with store := ProductViewSet.invalidate_cache schema_name product_id st.store }

/-- Python's stable `sorted(xs, key=f)` for natural-number keys, modelled as a
stable insertion sort: an element is inserted strictly before the first element
with a larger key, hence after all elements with an equal or smaller key. -/
def insertByKey {α : Type} (f : α → Nat) (a : α) : List α → List α
  | [] => [a]
  | b :: bs => if f a < f b then a :: b :: bs else b :: insertByKey f a bs

def pySorted {α : Type} (f : α → Nat) : List α → List α
  | [] => []
  | a :: rest => insertByKey f a (pySorted f rest)

/-- Python `str.strip()`: the string with leading and trailing whitespace
removed. -/
def pyStrip (s : String) : String :=
  ⟨((s.data.dropWhile Char.isWhitespace).reverse.dropWhile Char.isWhitespace).reverse⟩

/-- Python `str.lower()` on the ASCII query strings in scope. -/
def pyLower (s : String) : String :=
  ⟨s.data.map Char.toLower⟩

/-- Outcome of `ProductSearchService().search(query)` as observed by the view:
the ranked identifier list, or a raised exception (construction of the service,
`ensure_index`, and the query itself all sit inside the view's `try`). -/
inductive SearchOutcome where
  | ok (ids : List Nat)
  | raised (msg : String)

/-- An HTTP response of the search endpoint. -/
inductive Resp where
  | ok (body : PyVal)
  | badRequest (detail : String)
  | serviceUnavailable (detail : String)
  deriving DecidableEq, Repr

/-- Embeds `ProductViewSet.search` (`apps/catalog/views.py` 68-90).  The digest
function models `hashlib.sha1(...).hexdigest()` from the Python standard
library and is passed as a parameter; only its determinism is relevant.  Steps,
in source order: strip the query and reject a blank one with a 400; build the
cache key `{schema}:catalog:products:search:{digest(query.lower())}` (note: no
generation component); return the cached payload on a hit; call the search
service, mapping any raised error to the 503 body; hydrate
`Product.objects.filter(id__in=product_ids)` against the storage engine `db`
(note: no `is_active` filter); re-order by position in `product_ids`; cache the
serialized payload with timeout 60 and return it. -/
def ProductViewSet.search (digest : String → String) (schema_name : String)
    (qparam : Option String) (outcome : SearchOutcome) (db : List Product)
    (s : Store) : Resp × Store :=
  let query := pyStrip (qparam.getD "")
  if query = "" then (.badRequest "Missing query parameter q", s)
  else
    let cache_key := viewCacheKey schema_name ("products:search:" ++ digest (pyLower query))
    match cacheGet s cache_key with
    | some cached => (.ok cached, s)
    | none =>
      match outcome with
      | .raised _ => (.serviceUnavailable "Search temporarily unavailable", s)
      | .ok product_ids =>
        let queryset := db.filter (fun p => product_ids.contains p.id)
        let ordered := pySorted (fun p => product_ids.indexOf p.id) queryset
        let data := PyVal.pyData ordered
        (.ok data, cacheSet s cache_key data (some 60))

/-- Model of `hashlib.sha1(...).hexdigest()` (Python standard library, external
to the repository): a fixed deterministic 160-bit digest of the input string,
here a rolling hash reduced modulo `2 ^ 160` and rendered in decimal.  Every
property proved below uses only that the digest is a fixed function of the
query text. -/
def sha1Hex (s : String) : String :=
  toString (s.data.foldl (fun a c => (a * 131 + c.toNat) % 2 ^ 160) 7)

theorem cacheGet_set_self (s : Store) (k : String) (v : PyVal) (t : Option Nat) :
    cacheGet (cacheSet s k v t) k = some v := by
  simp [cacheGet, cacheSet]

theorem cacheSet_apply_self (s : Store) (k : String) (v : PyVal) (t : Option Nat) :
    cacheSet s k v t k = some ⟨v, t⟩ := by
  simp [cacheSet]

theorem orPublic_ne_empty (x : Option String) : orPublic x ≠ "" := by
  match x with
  | none => simp [orPublic]
  | some s =>
    by_cases h : s = "" <;> simp [orPublic, h]

/-- C9: for every record identifier and every behavior of the underlying search
client — success or any raised error, a not-found error included — the adapter's
`delete_product` returns normally to its caller; no exception propagates past
the adapter call. -/
theorem delete_product_never_propagates (pfx schema_name : String)
    (write_refresh : Option String) (product_id : Nat)
    (clientDelete : DeletePayload → EsCall Unit) :
    (ProductSearchService.delete_product pfx schema_name write_refresh product_id
        clientDelete).1 = .ret () := by
  unfold ProductSearchService.delete_product
  dsimp only
  generalize clientDelete _ = e
  cases e <;> rfl

/-- C10: both tenant-namespacing entry points map a falsy tenant identifier
(`None` or the empty string) to the literal `'public'`: the cache key service
substitutes it in its constructor and the channel builder substitutes it before
sanitizing; the resulting cache keys and notification channels coincide with
those of the `public` tenant, which are well-formed. -/
theorem falsy_tenant_maps_to_public (suffix : String) (user_id : Nat) :
    orPublic none = "public" ∧
    orPublic (some "") = "public" ∧
    CatalogCacheService.key (orPublic none) suffix =
      CatalogCacheService.key "public" suffix ∧
    CatalogCacheService.key (orPublic (some "")) suffix =
      CatalogCacheService.key "public" suffix ∧
    normalize_schema_name none = "public" ∧
    normalize_schema_name (some "") = "public" ∧
    build_user_notification_group none user_id =
      build_user_notification_group (some "public") user_id ∧
    build_user_notification_group (some "") user_id =
      build_user_notification_group (some "public") user_id :=
  ⟨rfl, rfl, rfl, rfl, rfl, rfl, rfl, rfl⟩

/-! Concrete scenario for the search-generation claims: tenant `acme`, query
`"phone"`, generation counter initialized.  Each definition below replays the
code as embedded above. -/

def stale_p : Product := ⟨1, "Phone", "a phone", "99.50", true⟩

def stale_s0 : Store :=
  cacheSet emptyStore (CatalogCacheService.search_version_key "acme") (.pyInt 1) none

/-- Store after a first search for `"phone"` under generation 1 (it caches the
serialized result). -/
def stale_s1 : Store :=
  (ProductViewSet.search sha1Hex "acme" (some "phone") (.ok [1]) [stale_p] stale_s0).2

/-- Store after a write bumps the generation to 2. -/
def stale_s2 : Store :=
  (CatalogCacheService.bump_search_version true "acme" stale_s1).2

/-- C1, falsified on the code: `ProductViewSet.search` builds its cache key as
`{tenant}:catalog:products:search:{digest}` with no generation component
(`apps/catalog/views.py` 74-75 never calls `get_search_version`), so the key for
the identical query under generation 2 equals the key under generation 1, and a
search after the bump returns the entry cached under the old generation.
Concretely: a search for `"phone"` under generation 1 caches the result; the
generation is bumped to 2; the identical search — against a storage engine and
search index that no longer contain the record — still returns the stale cached
payload. -/
theorem search_after_bump_returns_stale_entry :
    (CatalogCacheService.get_search_version "acme" stale_s1).1 = 1 ∧
    (CatalogCacheService.get_search_version "acme" stale_s2).1 = 2 ∧
    (ProductViewSet.search sha1Hex "acme" (some "phone") (.ok [1]) [stale_p] stale_s0).1
      = .ok (.pyData [stale_p]) ∧
    (ProductViewSet.search sha1Hex "acme" (some "phone") (.ok []) [] stale_s2).1
      = .ok (.pyData [stale_p]) := by decide

def nobump_env : SvcEnv := ⟨true, true, .ok (), [10, 11]⟩

def nobump_st0 : WriteState :=
  ⟨cacheSet emptyStore (CatalogCacheService.search_version_key "acme") (.pyInt 5) none,
    [], [], 0⟩

/-- State after the wired create path (the `post_save` receiver of
`apps/catalog/signals.py` fired by `serializer.save()`, then
`ProductViewSet._invalidate_cache`) processes a creation. -/
def nobump_st1 : WriteState :=
  ProductViewSet.perform_create nobump_env "acme" ⟨11, "Laptop", "", "1200.00", true⟩ nobump_st0

/-- C2, falsified on the code: the wired write path — the signal receivers of
`apps/catalog/signals.py` together with `ProductViewSet._invalidate_cache` —
only deletes the list and detail keys and never calls `bump_search_version`
(`ProductEventService`, which would bump, is referenced by the tests but wired
nowhere).  Concretely: with the tenant's generation at 5, creating a record
leaves the counter at 5, so a subsequent search-cache read observes the old
generation. -/
theorem wired_create_path_never_bumps_generation :
    (CatalogCacheService.get_search_version "acme" nobump_st0.store).1 = 5 ∧
    (CatalogCacheService.get_search_version "acme" nobump_st1.store).1 = 5 ∧
    nobump_st1.store (CatalogCacheService.search_version_key "acme")
      = some ⟨.pyInt 5, none⟩ := by decide

def inactive_p : Product := ⟨2, "Phone", "discontinued", "10.00", false⟩

/-- C5, falsified on the code: the hydration step is
`Product.objects.filter(id__in=product_ids)` with no `is_active=True` filter
(`apps/catalog/views.py` 86), while the repository's own test
`test_search_endpoint_uses_search_service_and_active_filter` asserts
`filter(id__in=[2, 1], is_active=True)`.  Concretely: the search engine returns
identifier 2, the storage engine holds record 2 with the active flag false, and
the response body — which the claim requires to contain active records only —
contains that inactive record; the payload is cached with TTL 60 all the same. -/
theorem search_hydration_includes_inactive :
    (ProductViewSet.search sha1Hex "acme" (some "phone") (.ok [2]) [inactive_p] emptyStore).1
      = .ok (.pyData [inactive_p]) ∧
    inactive_p.is_active = false ∧
    ((ProductViewSet.search sha1Hex "acme" (some "phone") (.ok [2]) [inactive_p] emptyStore).2
        (viewCacheKey "acme" ("products:search:" ++ sha1Hex "phone")))
      = some ⟨.pyData [inactive_p], some 60⟩ := by decide

/-- C6: for every search request with a non-empty stripped query, if the search
service call raises any error, the endpoint returns the 503 response with body
`{'detail': 'Search temporarily unavailable'}` and leaves the cache store
exactly as it was (the error branch performs no cache write); the handler is a
total function, so it never crashes. -/
theorem search_backend_error_returns_503
    (digest : String → String) (schema_name : String) (qparam : Option String)
    (msg : String) (db : List Product) (s : Store)
    (hq : pyStrip (qparam.getD "") ≠ "")
    (hmiss : cacheGet s (viewCacheKey schema_name
      ("products:search:" ++ digest (pyLower (pyStrip (qparam.getD ""))))) = none) :
    ProductViewSet.search digest schema_name qparam (.raised msg) db s =
      (.serviceUnavailable "Search temporarily unavailable", s) := by
  unfold ProductViewSet.search
  dsimp only
  rw [if_neg hq, hmiss]

/-- Witness for C6 at a concrete input: query `phone`, empty cache, backend
raising `es-down`. -/
theorem search_backend_error_returns_503_witness :
    ProductViewSet.search sha1Hex "acme" (some "phone") (.raised "es-down") [] emptyStore =
      (.serviceUnavailable "Search temporarily unavailable", emptyStore) :=
  search_backend_error_returns_503 sha1Hex "acme" (some "phone") "es-down" [] emptyStore
    (by decide) rfl

/-- C8: `get_search_version` is a total function (never raises) satisfying:
if the counter is absent it initializes it to 1 with no expiry and returns 1;
if the stored value is present but non-numeric it resets the counter to 1 and
returns 1; and a repeated call with no intervening bump returns the same value
and leaves the store untouched (idempotent reads). -/
theorem get_search_version_total_spec (schema_name : String) (s : Store) :
    (cacheGet s (CatalogCacheService.search_version_key schema_name) = none →
      CatalogCacheService.get_search_version schema_name s =
        (1, cacheSet s (CatalogCacheService.search_version_key schema_name) (.pyInt 1) none)) ∧
    (∀ v, cacheGet s (CatalogCacheService.search_version_key schema_name) = some v →
      pyIntOf v = none →
      CatalogCacheService.get_search_version schema_name s =
        (1, cacheSet s (CatalogCacheService.search_version_key schema_name) (.pyInt 1) none)) ∧
    CatalogCacheService.get_search_version schema_name
        (CatalogCacheService.get_search_version schema_name s).2 =
      CatalogCacheService.get_search_version schema_name s := by
  refine ⟨?_, ?_, ?_⟩
  · intro h
    unfold CatalogCacheService.get_search_version
    dsimp only
    rw [h]
  · intro v hv hnum
    unfold CatalogCacheService.get_search_version
    dsimp only
    rw [hv]
    dsimp only
    rw [hnum]
  · rcases hc : cacheGet s (CatalogCacheService.search_version_key schema_name) with _ | v
    · have h1 : CatalogCacheService.get_search_version schema_name s =
          (1, cacheSet s (CatalogCacheService.search_version_key schema_name) (.pyInt 1) none) := by
        unfold CatalogCacheService.get_search_version
        dsimp only
        rw [hc]
      rw [h1]
      unfold CatalogCacheService.get_search_version
      dsimp only
      rw [cacheGet_set_self]
      rfl
    · rcases hnum : pyIntOf v with _ | m
      · have h1 : CatalogCacheService.get_search_version schema_name s =
            (1, cacheSet s (CatalogCacheService.search_version_key schema_name) (.pyInt 1) none) := by
          unfold CatalogCacheService.get_search_version
          dsimp only
          rw [hc]
          dsimp only
          rw [hnum]
        rw [h1]
        unfold CatalogCacheService.get_search_version
        dsimp only
        rw [cacheGet_set_self]
        rfl
      · have h1 : CatalogCacheService.get_search_version schema_name s = (m, s) := by
          unfold CatalogCacheService.get_search_version
          dsimp only
          rw [hc]
          dsimp only
          rw [hnum]
        rw [h1]
        exact h1

/-- Witness for C8 at a concrete input: the counter holds the corrupted string
`'garbage'`; the read self-heals to 1. -/
theorem get_search_version_total_spec_witness :
    CatalogCacheService.get_search_version "acme"
        (cacheSet emptyStore (CatalogCacheService.search_version_key "acme")
          (.pyStr "garbage") none) =
      (1, cacheSet
        (cacheSet emptyStore (CatalogCacheService.search_version_key "acme")
          (.pyStr "garbage") none)
        (CatalogCacheService.search_version_key "acme") (.pyInt 1) none) :=
  (get_search_version_total_spec "acme"
      (cacheSet emptyStore (CatalogCacheService.search_version_key "acme")
        (.pyStr "garbage") none)).2.1
    (.pyStr "garbage") (by decide) (by decide)

/-- C7: `bump_search_version` is a total function (never raises) with the
three-tier fallback: with an initialized numeric counter the atomic increment
runs and the observed version strictly increases by exactly 1; with an
uninitialized counter (`cache.incr` raises `ValueError`) it falls back to
reading the current value and writing `current + 1`; and on an unexpected
increment failure (`healthy = false`) it returns the version a plain read
yields, and if the counter is initialized and numeric the store is returned
entirely unchanged. -/
theorem bump_search_version_three_tier (schema_name : String) (s : Store)
    (n : Int) (t : Option Nat) :
    (s (CatalogCacheService.search_version_key schema_name) = some ⟨.pyInt n, t⟩ →
      CatalogCacheService.bump_search_version true schema_name s =
        (n + 1, cacheSet s (CatalogCacheService.search_version_key schema_name)
          (.pyInt (n + 1)) t) ∧
      (CatalogCacheService.get_search_version schema_name s).1 = n ∧
      (CatalogCacheService.get_search_version schema_name
          (CatalogCacheService.bump_search_version true schema_name s).2).1 = n + 1) ∧
    (s (CatalogCacheService.search_version_key schema_name) = none →
      CatalogCacheService.bump_search_version true schema_name s =
        ((CatalogCacheService.get_search_version schema_name s).1 + 1,
          cacheSet (CatalogCacheService.get_search_version schema_name s).2
            (CatalogCacheService.search_version_key schema_name)
            (.pyInt ((CatalogCacheService.get_search_version schema_name s).1 + 1)) none)) ∧
    ((CatalogCacheService.bump_search_version false schema_name s).1 =
        (CatalogCacheService.get_search_version schema_name s).1 ∧
      (s (CatalogCacheService.search_version_key schema_name) = some ⟨.pyInt n, t⟩ →
        CatalogCacheService.bump_search_version false schema_name s = (n, s))) := by
  have hbf : CatalogCacheService.bump_search_version false schema_name s =
      CatalogCacheService.get_search_version schema_name s := rfl
  refine ⟨?_, ?_, ?_, ?_⟩
  · intro h
    have hincr : cacheIncr true s (CatalogCacheService.search_version_key schema_name) =
        .success (n + 1) (cacheSet s (CatalogCacheService.search_version_key schema_name)
          (.pyInt (n + 1)) t) := by
      simp [cacheIncr, h]
    have hget : cacheGet s (CatalogCacheService.search_version_key schema_name) =
        some (.pyInt n) := by
      simp [cacheGet, h]
    have hb : CatalogCacheService.bump_search_version true schema_name s =
        (n + 1, cacheSet s (CatalogCacheService.search_version_key schema_name)
          (.pyInt (n + 1)) t) := by
      unfold CatalogCacheService.bump_search_version
      dsimp only
      rw [hincr]
    refine ⟨hb, ?_, ?_⟩
    · unfold CatalogCacheService.get_search_version
      dsimp only
      rw [hget]
      rfl
    · rw [hb]
      unfold CatalogCacheService.get_search_version
      dsimp only
      rw [cacheGet_set_self]
      rfl
  · intro h
    have hincr : cacheIncr true s (CatalogCacheService.search_version_key schema_name) =
        .valueError := by
      simp [cacheIncr, h]
    unfold CatalogCacheService.bump_search_version
    dsimp only
    rw [hincr]
  · rw [hbf]
  · intro h
    have hget : cacheGet s (CatalogCacheService.search_version_key schema_name) =
        some (.pyInt n) := by
      simp [cacheGet, h]
    have hgs : CatalogCacheService.get_search_version schema_name s = (n, s) := by
      unfold CatalogCacheService.get_search_version
      dsimp only
      rw [hget]
      rfl
    rw [hbf, hgs]

/-- Witness for C7 at a concrete input: counter at 5 — the healthy bump yields
5 + 1 with the counter rewritten, the failing bump returns 5 with the store
untouched. -/
theorem bump_search_version_three_tier_witness :
    CatalogCacheService.bump_search_version true "acme"
        (cacheSet emptyStore (CatalogCacheService.search_version_key "acme")
          (.pyInt 5) none) =
      (5 + 1, cacheSet
        (cacheSet emptyStore (CatalogCacheService.search_version_key "acme")
          (.pyInt 5) none)
        (CatalogCacheService.search_version_key "acme") (.pyInt (5 + 1)) none) ∧
    CatalogCacheService.bump_search_version false "acme"
        (cacheSet emptyStore (CatalogCacheService.search_version_key "acme")
          (.pyInt 5) none) =
      (5, cacheSet emptyStore (CatalogCacheService.search_version_key "acme")
        (.pyInt 5) none) := by
  have h := bump_search_version_three_tier "acme"
    (cacheSet emptyStore (CatalogCacheService.search_version_key "acme") (.pyInt 5) none)
    5 none
  exact ⟨(h.1 (by decide)).1, h.2.2.2 (by decide)⟩

theorem str_ext {s t : String} (h : s.data = t.data) : s = t := by
  cases s; cases t; exact congrArg String.mk h

theorem str_append_cancel_right {a b c : String} (h : a ++ c = b ++ c) : a = b := by
  apply str_ext
  have hd := congrArg String.data h
  rw [String.data_append, String.data_append] at hd
  exact List.append_cancel_right hd

theorem str_append_cancel_left {a b c : String} (h : a ++ b = a ++ c) : b = c := by
  apply str_ext
  have hd := congrArg String.data h
  rw [String.data_append, String.data_append] at hd
  exact List.append_cancel_left hd

/-- C3, counterexample: the channel-name sanitizer maps every character outside
`[A-Za-z0-9_.-]` to `'_'`, so the distinct tenant identifiers `acme:west` and
`acme west` produce the identical notification channel name for the same user —
the claim's universally quantified channel-name inequality is false on the
code. -/
theorem channel_name_collision_across_tenants :
    ("acme:west" : String) ≠ "acme west" ∧
    build_user_notification_group (some "acme:west") 7 =
      build_user_notification_group (some "acme west") 7 := by decide

/-- C3 as amended: for non-falsy tenant identifiers T1 ≠ T2 and equal
suffix / configured index prefix / record id / user id, the cache keys differ
and the search index names differ; the notification channel names differ
whenever the sanitized tenant identifiers differ (sanitization is not
injective, see the counterexample). -/
theorem tenant_namespace_isolation (t1 t2 sfx pfx : String) (user_id : Nat)
    (hne : t1 ≠ t2) (h1 : t1 ≠ "") (h2 : t2 ≠ "") :
    CatalogCacheService.key (orPublic (some t1)) sfx ≠
      CatalogCacheService.key (orPublic (some t2)) sfx ∧
    ProductSearchService.index_name pfx t1 ≠ ProductSearchService.index_name pfx t2 ∧
    (normalize_schema_name (some t1) ≠ normalize_schema_name (some t2) →
      build_user_notification_group (some t1) user_id ≠
        build_user_notification_group (some t2) user_id) := by
  have e1 : orPublic (some t1) = t1 := by simp [orPublic, h1]
  have e2 : orPublic (some t2) = t2 := by simp [orPublic, h2]
  refine ⟨?_, ?_, ?_⟩
  · intro heq
    rw [e1, e2] at heq
    exact hne (str_append_cancel_right (str_append_cancel_right heq))
  · intro heq
    unfold ProductSearchService.index_name at heq
    exact hne (str_append_cancel_left (str_append_cancel_right heq))
  · intro hnorm heq
    unfold build_user_notification_group at heq
    exact hnorm (str_append_cancel_right (str_append_cancel_right heq))

/-- Witness for C3's amended theorem at concrete inputs: tenants `acme` and
`globex`, suffix `products:list`, index prefix `saas`, user 7. -/
theorem tenant_namespace_isolation_witness :
    CatalogCacheService.key (orPublic (some "acme")) "products:list" ≠
      CatalogCacheService.key (orPublic (some "globex")) "products:list" ∧
    ProductSearchService.index_name "saas" "acme" ≠
      ProductSearchService.index_name "saas" "globex" ∧
    build_user_notification_group (some "acme") 7 ≠
      build_user_notification_group (some "globex") 7 := by
  have h := tenant_namespace_isolation "acme" "globex" "products:list" "saas" 7
    (by decide) (by decide) (by decide)
  exact ⟨h.1, h.2.1, h.2.2 (by decide)⟩

theorem foldl_push_user_true (cs : Option String) (uids : List Nat) (msg sch : String)
    (hsch : sch ≠ "") (st : WriteState) :
    uids.foldl (fun acc uid => push_user_notification true cs uid msg (some sch) acc) st =
      { st with pushes := (st.pushes ++ uids.map
          (fun uid => (build_user_notification_group (some sch) uid, msg))) } := by
  induction uids generalizing st with
  | nil => simp
  | cons u us ih =>
    have hpush : push_user_notification true cs u msg (some sch) st =
        { st with pushes := st.pushes ++ [(build_user_notification_group (some sch) u, msg)] } := by
      unfold push_user_notification
      dsimp only
      rw [if_pos hsch]
      rfl
    simp only [List.foldl_cons, List.map_cons]
    rw [hpush, ih]
    simp

theorem foldl_push_user_false (cs : Option String) (uids : List Nat) (msg : String)
    (sn : Option String) (st : WriteState) :
    uids.foldl (fun acc uid => push_user_notification false cs uid msg sn acc) st = st := by
  induction uids generalizing st with
  | nil => rfl
  | cons u us ih =>
    simp only [List.foldl_cons]
    exact ih (push_user_notification false cs u msg sn st)

theorem push_bulk_true_spec (cs : Option String) (uids : List Nat) (msg sch : String)
    (hsch : sch ≠ "") (st : WriteState) :
    push_bulk_user_notification true cs uids msg (some sch) st =
      { st with
        bulkPushCalls := st.bulkPushCalls + 1
        pushes := (st.pushes ++ uids.map
          (fun uid => (build_user_notification_group (some sch) uid, msg))) } := by
  unfold push_bulk_user_notification
  rw [foldl_push_user_true cs uids msg sch hsch]

theorem push_bulk_false_spec (cs : Option String) (uids : List Nat) (msg : String)
    (sn : Option String) (st : WriteState) :
    push_bulk_user_notification false cs uids msg sn st =
      { st with bulkPushCalls := st.bulkPushCalls + 1 } := by
  unfold push_bulk_user_notification
  rw [foldl_push_user_false]

/-- C4: on creation (and only on creation) with a non-empty staff set, the
Product Event Service persists exactly one notification row per staff user
(in staff order, with the identical message), issues exactly one bulk push,
and — when the transport is configured — that bulk push delivers the identical
message to each staff user's tenant-scoped channel by repeated single-channel
delivery; on an update nothing is persisted or pushed. -/
theorem staff_notification_fanout_on_create (env : SvcEnv) (schema_name : Option String)
    (p : Product) (st st' : WriteState) (hstaff : env.staff_user_ids ≠ []) :
    (ProductEventService.handle_product_saved env schema_name p true st).notifications =
      st.notifications ++ env.staff_user_ids.map
        (fun uid => (uid, "New product created: " ++ p.name)) ∧
    (ProductEventService.handle_product_saved env schema_name p true st).bulkPushCalls =
      st.bulkPushCalls + 1 ∧
    (env.layerUp = true →
      (ProductEventService.handle_product_saved env schema_name p true st).pushes =
        st.pushes ++ env.staff_user_ids.map
          (fun uid =>
            (build_user_notification_group (some (orPublic schema_name)) uid,
              "New product created: " ++ p.name))) ∧
    (ProductEventService.handle_product_saved env schema_name p false st').notifications =
      st'.notifications ∧
    (ProductEventService.handle_product_saved env schema_name p false st').pushes =
      st'.pushes ∧
    (ProductEventService.handle_product_saved env schema_name p false st').bulkPushCalls =
      st'.bulkPushCalls := by
  have hmain : ProductEventService.handle_product_saved env schema_name p true st =
      push_bulk_user_notification env.layerUp none env.staff_user_ids
        ("New product created: " ++ p.name) (some (orPublic schema_name))
        { st with
          store := CatalogCacheService.invalidate_product_change env.cacheHealthy
            (orPublic schema_name) p.id st.store
          notifications := (st.notifications ++ env.staff_user_ids.map
            (fun uid => (uid, "New product created: " ++ p.name))) } := by
    unfold ProductEventService.handle_product_saved ProductEventService.notify_staff_about_product
    dsimp only
    rw [if_neg hstaff]
    rfl
  refine ⟨?_, ?_, ?_, rfl, rfl, rfl⟩
  · rw [hmain]
    rcases hl : env.layerUp with _ | _
    · rw [push_bulk_false_spec]
    · rw [push_bulk_true_spec _ _ _ _ (orPublic_ne_empty schema_name)]
  · rw [hmain]
    rcases hl : env.layerUp with _ | _
    · rw [push_bulk_false_spec]
    · rw [push_bulk_true_spec _ _ _ _ (orPublic_ne_empty schema_name)]
  · intro hl
    rw [hmain, hl, push_bulk_true_spec _ _ _ _ (orPublic_ne_empty schema_name)]

/-- Witness for C4 at a concrete input: tenant `acme`, staff users 10 and 11,
record `Phone` created with a configured transport. -/
theorem staff_notification_fanout_on_create_witness :
    (ProductEventService.handle_product_saved ⟨true, true, .ok (), [10, 11]⟩ (some "acme")
        ⟨5, "Phone", "smart", "99.50", true⟩ true ⟨emptyStore, [], [], 0⟩).notifications =
      ([] : List (Nat × String)) ++ [10, 11].map
        (fun uid => (uid, "New product created: " ++ "Phone")) ∧
    (ProductEventService.handle_product_saved ⟨true, true, .ok (), [10, 11]⟩ (some "acme")
        ⟨5, "Phone", "smart", "99.50", true⟩ true ⟨emptyStore, [], [], 0⟩).bulkPushCalls = 0 + 1 ∧
    (ProductEventService.handle_product_saved ⟨true, true, .ok (), [10, 11]⟩ (some "acme")
        ⟨5, "Phone", "smart", "99.50", true⟩ true ⟨emptyStore, [], [], 0⟩).pushes =
      ([] : List (String × String)) ++ [10, 11].map
        (fun uid =>
          (build_user_notification_group (some (orPublic (some "acme"))) uid,
            "New product created: " ++ "Phone")) ∧
    (ProductEventService.handle_product_saved ⟨true, true, .ok (), [10, 11]⟩ (some "acme")
        ⟨5, "Phone", "smart", "99.50", true⟩ true ⟨emptyStore, [], [], 0⟩).notifications =
      ([] : List (Nat × String)) ++ [10, 11].map
        (fun uid => (uid, "New product created: " ++ "Phone")) := by
  have h := staff_notification_fanout_on_create ⟨true, true, .ok (), [10, 11]⟩ (some "acme")
    ⟨5, "Phone", "smart", "99.50", true⟩ ⟨emptyStore, [], [], 0⟩ ⟨emptyStore, [], [], 0⟩
    (by decide)
  exact ⟨h.1, h.2.1, h.2.2.1 rfl, h.1⟩
